import Mathlib

/-!
Shallow embedding of the semantic-video-analysis frame-selection pipeline.

Embedded source files:
- semantic_video_analysis/strategies/frame_selection/frame_info.py
- semantic_video_analysis/strategies/frame_selection/periodic_selection_strategy.py
- semantic_video_analysis/strategies/frame_selection/frame_selection_analysis.py
- semantic_video_analysis/models/technical_analyzer.py
- mcp_interface/mcp_server.py (the create_frame_analysis_fn wrapper)

Modelling conventions: Python floats are modelled as rationals; the Python
int() conversion (truncation toward zero) is modelled by pyInt; fallible
collaborators (cv2 decoding, the captioning model, the SVM / YOLO sub-models)
are modelled as explicit function parameters returning Option / Except;
pixel-level metric computations (cv2 / numpy formulas over the pixel grid)
are modelled as opaque per-frame functions carried by the analyzer record,
since no claim depends on the pixel arithmetic itself.
-/

namespace SVA

/-- Python int() applied to a rational value: truncation toward zero
(floor for nonnegative arguments, ceiling for negative ones). -/
def pyInt (q : ℚ) : Int :=
  if 0 ≤ q then ⌊q⌋ else ⌈q⌉

/-- FrameInfo from frame_info.py: index and timestamp of a selected frame. -/
structure FrameInfo where
  index : Int
  timestamp : ℚ
deriving DecidableEq

/-- PeriodicSelectionStrategy from periodic_selection_strategy.py:
the three constructor-stored parameters. -/
structure PeriodicSelectionStrategy where
  period : ℚ
  duration : ℚ
  fps : ℚ
deriving DecidableEq

/-- PeriodicSelectionStrategy.__init__ stores the parameters unchanged;
the source performs no validation of the period. -/
def PeriodicSelectionStrategy.init (period duration fps : ℚ) : PeriodicSelectionStrategy :=
  { period := period, duration := duration, fps := fps }

/-- One execution of the while-loop body of select_frames: append
FrameInfo(int(timestamp * fps), timestamp) and advance timestamp by period.
The loop state is (timestamp, frames accumulated so far). -/
def selectFramesStep (period fps : ℚ) (s : ℚ × List FrameInfo) : ℚ × List FrameInfo :=
  (s.1 + period, s.2 ++ [{ index := pyInt (s.1 * fps), timestamp := s.1 }])

/-- The select_frames while-loop started at timestamp t. The source loop
terminates only when the period is positive, so that hypothesis is carried
as an argument; the non-positive-period behaviour is analysed separately
through selectFramesStep. -/
def selectFramesAux (p D f : ℚ) (hp : 0 < p) (t : ℚ) : List FrameInfo :=
  if h : t < D then
    { index := pyInt (t * f), timestamp := t } :: selectFramesAux p D f hp (t + p)
  else []
termination_by (⌈(D - t) / p⌉).toNat
decreasing_by
  have h1 : (D - (t + p)) / p = (D - t) / p - 1 := by
    field_simp
    ring
  have h2 : (0 : ℚ) < (D - t) / p := div_pos (by linarith) hp
  have h3 : 0 < ⌈(D - t) / p⌉ := Int.ceil_pos.mpr h2
  rw [h1, Int.ceil_sub_one]
  omega

/-- PeriodicSelectionStrategy.select_frames, for a positive period. -/
def PeriodicSelectionStrategy.select_frames (s : PeriodicSelectionStrategy)
    (hp : 0 < s.period) : List FrameInfo :=
  selectFramesAux s.period s.duration s.fps hp 0

/-- The content dict the orchestrator stores into each Action. -/
structure ActionContent where
  description : String
  frame_index : Int
  frame_timestamp : ℚ
deriving DecidableEq

/-- Action from media_context.py; the field named end in the source is
modelled as stop, since end is a reserved word. -/
structure Action (Tech : Type) where
  start : ℚ
  stop : ℚ
  content : ActionContent
  technical_analysis : Option Tech
deriving DecidableEq

/-- MediaContext from media_context.py. -/
structure MediaContext (Tech : Type) where
  actions : List (Action Tech)

/-- Character-level split, modelling Python str.split with a one-character
separator; written by structural recursion so it evaluates on literals. -/
def splitOnChar (c : Char) : List Char → List (List Char)
  | [] => [[]]
  | x :: xs =>
    match splitOnChar c xs with
    | [] => [[]]
    | g :: gs => if x = c then [] :: g :: gs else (x :: g) :: gs

/-- os.path.basename: the text after the final slash. -/
def pyBasename (s : String) : String :=
  String.mk ((splitOnChar '/' s.data).getLastD s.data)

/-- Python s.split(sep)[0]: the text before the first separator. -/
def pySplitHead (s : String) (sep : Char) : String :=
  String.mk ((splitOnChar sep s.data).headD s.data)

/-- The temp-file path used for the i-th selected frame in analyse. -/
def framePath (base : String) (i : Nat) : String :=
  "extracted_frames/" ++ base ++ "_frame" ++ toString i ++ ".jpg"

/-- FrameSelectionAnalysis from frame_selection_analysis.py. The strategy
object is represented by the frame list its select_frames call yields, and
the technical analyzer by an opaque per-frame function producing a value of
the abstract metrics type Tech. -/
structure FrameSelectionAnalysis (Frame Tech : Type) where
  video_path : String
  frame_analysis_fn : String → String
  frame_selection_strategy : List FrameInfo
  enable_technical_analysis : Bool
  technical_analyzer : Option (Frame → Tech)

/-- FrameSelectionAnalysis.__init__: the analyzer field is populated by
create_technical_analyzer() exactly when technical analysis is enabled. -/
def FrameSelectionAnalysis.init {Frame Tech : Type} (video_path : String)
    (frame_analysis_fn : String → String) (strategy_frames : List FrameInfo)
    (enable_technical_analysis : Bool) (created_analyzer : Frame → Tech) :
    FrameSelectionAnalysis Frame Tech :=
  { video_path := video_path
    frame_analysis_fn := frame_analysis_fn
    frame_selection_strategy := strategy_frames
    enable_technical_analysis := enable_technical_analysis
    technical_analyzer :=
      if enable_technical_analysis then some created_analyzer else none }

/-- The technical-analysis block of the analyse loop body: None unless
technical analysis is enabled and an analyzer exists; then the written frame
is re-read (readFrame, modelling cv2.imread) and, when the read succeeds,
analysed by the analyzer. -/
def techValue {Frame Tech : Type} (enable : Bool) (analyzer : Option (Frame → Tech))
    (readFrame : String → Option Frame) (path : String) : Option Tech :=
  if enable then
    match analyzer with
    | some az =>
      match readFrame path with
      | some fr => some (az fr)
      | none => none
    | none => none
  else none

/-- The frame_analyses accumulation loop of analyse: the i-th selected frame
is decoded (extractOk, modelling extract_frame success on its index); on
success the semantic caption is computed on the temp-file path and the
technical-analysis block runs. Failed decodes contribute nothing; the
enumeration counter i advances for every selected frame, matching the Python enumerate. -/
def collectAnalyses {Frame Tech : Type} (fn : String → String) (extractOk : Int → Bool)
    (enable : Bool) (analyzer : Option (Frame → Tech)) (readFrame : String → Option Frame)
    (base : String) : List FrameInfo → Nat → List (FrameInfo × String × Option Tech)
  | [], _ => []
  | fi :: rest, i =>
    if extractOk fi.index then
      (fi, fn (framePath base i), techValue enable analyzer readFrame (framePath base i)) ::
        collectAnalyses fn extractOk enable analyzer readFrame base rest (i + 1)
    else collectAnalyses fn extractOk enable analyzer readFrame base rest (i + 1)

/-- Placeholder tuple used to express the in-bounds Python list indexing via
List.getD; every access in mkActions is in bounds, so it is never produced. -/
def defaultFA {Tech : Type} : FrameInfo × String × Option Tech :=
  ({ index := 0, timestamp := 0 }, "", none)

/-- The Action built for position i of the surviving frame_analyses list:
start is 0 for the first action and otherwise the midpoint of the previous
and current timestamps; stop is the video duration for the last action and
otherwise the midpoint of the current and next timestamps. -/
def actionAt {Tech : Type} (duration : ℚ)
    (fas : List (FrameInfo × String × Option Tech)) (i : Nat) : Action Tech :=
  { start :=
      if i = 0 then 0
      else ((fas.getD (i - 1) defaultFA).1.timestamp + (fas.getD i defaultFA).1.timestamp) / 2
    stop :=
      if i = fas.length - 1 then duration
      else ((fas.getD i defaultFA).1.timestamp + (fas.getD (i + 1) defaultFA).1.timestamp) / 2
    content :=
      { description := (fas.getD i defaultFA).2.1
        frame_index := (fas.getD i defaultFA).1.index
        frame_timestamp := (fas.getD i defaultFA).1.timestamp }
    technical_analysis := (fas.getD i defaultFA).2.2 }

/-- The action-construction loop of analyse. -/
def mkActions {Tech : Type} (duration : ℚ)
    (fas : List (FrameInfo × String × Option Tech)) : List (Action Tech) :=
  (List.range fas.length).map (actionAt duration fas)

/-- FrameSelectionAnalysis.analyse: obtain the duration (a parameter here,
read from the video collaborator in the source), collect the surviving frame
analyses, and assemble the MediaContext of temporal actions. -/
def FrameSelectionAnalysis.analyse {Frame Tech : Type} (a : FrameSelectionAnalysis Frame Tech)
    (duration : ℚ) (extractOk : Int → Bool) (readFrame : String → Option Frame) :
    MediaContext Tech :=
  let base := pySplitHead (pyBasename a.video_path) '.'
  MediaContext.mk (mkActions duration
    (collectAnalyses a.frame_analysis_fn extractOk a.enable_technical_analysis
      a.technical_analyzer readFrame base a.frame_selection_strategy 0))

/-- create_frame_analysis_fn from mcp_server.py: wraps the captioning model
so that any failure is returned as a descriptive string instead of being
raised into the orchestrator. -/
def create_frame_analysis_fn (generate_caption : String → Except String String) :
    String → String :=
  fun frame_path =>
    match generate_caption frame_path with
    | Except.ok caption => caption
    | Except.error e =>
      "Frame analysis failed for " ++ pyBasename frame_path ++ " (Error: " ++ e ++ ")"

/-- Values stored in the technical-analysis dict of technical_analyzer.py:
numbers, strings, the nested color_distribution dict, and Python None. -/
inductive PyVal where
  | num (q : ℚ)
  | str (s : String)
  | rgb (r g b : ℚ)
  | none
deriving DecidableEq

/-- Dict lookup on the insertion-ordered association list modelling a
Python dict: the first entry with the requested key, if any. -/
def dictFind (d : List (String × PyVal)) (k : String) : Option PyVal :=
  (d.find? (fun e => e.1 == k)).map (fun e => e.2)

/-- TechnicalFrameAnalyzer from technical_analyzer.py. The optional SVM and
YOLO sub-models are fallible per-frame functions (Except models the caught
exceptions of the source); the scalar metric computations are opaque
per-frame functions, since they are pixel-grid formulas outside the claims.
color_balance_of yields (balance, r, g, b) like the source helper. -/
structure TechnicalFrameAnalyzer (Frame : Type) where
  svm_model : Option (Frame → Except String Int)
  yolo_model : Option (Frame → Except String ℚ)
  clarity_of : Frame → ℚ
  contrast_of : Frame → ℚ
  brightness_of : Frame → ℚ
  sharpness_of : Frame → ℚ
  saturation_of : Frame → ℚ
  color_balance_of : Frame → ℚ × ℚ × ℚ × ℚ
  color_temperature_of : Frame → ℚ

/-- Source method _assign_lens_category: map the class from the classifier to a lens name. -/
def assign_lens_category (v : Int) : String :=
  if v = 0 then "standard lens"
  else if v = 1 then "fisheye lens"
  else if v = 2 then "wide-angle lens"
  else "unknown"

/-- Source method _classify_lens_type: None when no SVM model is loaded; on a successful
prediction the lens category, and None when the computation fails (the
source catches the exception and returns None). -/
def classify_lens_type {Frame : Type} (a : TechnicalFrameAnalyzer Frame) (fr : Frame) :
    Option String :=
  match a.svm_model with
  | Option.none => Option.none
  | some m =>
    match m fr with
    | Except.ok v => some (assign_lens_category v)
    | Except.error _ => Option.none

/-- Source method _analyze_objects: None when no YOLO model is loaded; the top-5 mask area
percentage on success, and None when the computation fails. -/
def analyze_objects {Frame : Type} (a : TechnicalFrameAnalyzer Frame) (fr : Frame) :
    Option ℚ :=
  match a.yolo_model with
  | Option.none => Option.none
  | some m =>
    match m fr with
    | Except.ok q => some q
    | Except.error _ => Option.none

/-- Source method _assign_shot_type: bucket the main-objects percentage, or None. -/
def assign_shot_type : Option ℚ → Option String
  | Option.none => Option.none
  | some p =>
    some (if p < 5 then "long shot"
      else if p < 15 then "wide shot"
      else if p < 40 then "medium shot"
      else "close-up")

/-- An Option String result stored into the dict becomes a string or None. -/
def optStrVal : Option String → PyVal
  | some s => PyVal.str s
  | Option.none => PyVal.none

/-- An Option rational result stored into the dict becomes a number or None. -/
def optNumVal : Option ℚ → PyVal
  | some q => PyVal.num q
  | Option.none => PyVal.none

/-- The clarity branch of _assign_quality_categories. -/
def clarityCategoryEntries (analysis : List (String × PyVal)) : List (String × PyVal) :=
  match dictFind analysis "clarity" with
  | some (PyVal.num clarity) =>
    [("clarity_category", PyVal.str
      (if clarity > 400 then "good" else if clarity > 200 then "average" else "bad"))]
  | _ => []

/-- The contrast branch of _assign_quality_categories. -/
def contrastCategoryEntries (analysis : List (String × PyVal)) : List (String × PyVal) :=
  match dictFind analysis "contrast" with
  | some (PyVal.num contrast) =>
    [("contrast_category", PyVal.str
      (if contrast > 40 then "good" else if contrast > 20 then "average" else "bad"))]
  | _ => []

/-- The brightness branch of _assign_quality_categories. -/
def brightnessCategoryEntries (analysis : List (String × PyVal)) : List (String × PyVal) :=
  match dictFind analysis "brightness" with
  | some (PyVal.num b) =>
    [("brightness_category", PyVal.str
      (if 0.3 ≤ b ∧ b ≤ 0.7 then "good"
        else if (0.2 ≤ b ∧ b < 0.3) ∨ (0.7 < b ∧ b ≤ 0.8) then "average"
        else "bad"))]
  | _ => []

/-- The color_temperature branch of _assign_quality_categories. -/
def colorTemperatureCategoryEntries (analysis : List (String × PyVal)) :
    List (String × PyVal) :=
  match dictFind analysis "color_temperature" with
  | some (PyVal.num t) =>
    [("color_temperature_category", PyVal.str
      (if -0.2 ≤ t ∧ t ≤ 0.2 then "neutral"
        else if 0.2 < t ∧ t ≤ 0.3 then "probably_warm"
        else if -0.3 ≤ t ∧ t < -0.2 then "probably_cold"
        else if t > 0.3 then "warm"
        else "cold"))]
  | _ => []

/-- The saturation branch of _assign_quality_categories. -/
def saturationCategoryEntries (analysis : List (String × PyVal)) : List (String × PyVal) :=
  match dictFind analysis "saturation" with
  | some (PyVal.num s) =>
    [("saturation_category", PyVal.str
      (if 0.4 ≤ s ∧ s ≤ 0.7 then "good"
        else if 0.2 ≤ s ∧ s < 0.4 then "average"
        else "bad"))]
  | _ => []

/-- The sharpness branch of _assign_quality_categories. -/
def sharpnessCategoryEntries (analysis : List (String × PyVal)) : List (String × PyVal) :=
  match dictFind analysis "sharpness" with
  | some (PyVal.num s) =>
    [("sharpness_category", PyVal.str
      (if s > 400 then "good" else if s > 200 then "average" else "bad"))]
  | _ => []

/-- Source method _assign_quality_categories: the categories dict, in the insertion order of the source. -/
def assign_quality_categories (analysis : List (String × PyVal)) : List (String × PyVal) :=
  clarityCategoryEntries analysis ++ contrastCategoryEntries analysis ++
    brightnessCategoryEntries analysis ++ colorTemperatureCategoryEntries analysis ++
    saturationCategoryEntries analysis ++ sharpnessCategoryEntries analysis

/-- TechnicalFrameAnalyzer.analyze_frame: empty dict for a None frame;
otherwise the scalar metrics in insertion order, the lens_type entry exactly
when an SVM model is loaded, the main_objects_percentage and shot_type
entries exactly when a YOLO model is loaded, followed by the quality
categories computed from the dict so far. -/
def TechnicalFrameAnalyzer.analyze_frame {Frame : Type} (a : TechnicalFrameAnalyzer Frame)
    (frame : Option Frame) : List (String × PyVal) :=
  match frame with
  | Option.none => []
  | some fr =>
    let cb := a.color_balance_of fr
    let base : List (String × PyVal) :=
      [("clarity", PyVal.num (a.clarity_of fr)),
       ("contrast", PyVal.num (a.contrast_of fr)),
       ("brightness", PyVal.num (a.brightness_of fr)),
       ("sharpness", PyVal.num (a.sharpness_of fr)),
       ("saturation", PyVal.num (a.saturation_of fr)),
       ("color_balance_metric", PyVal.num cb.1),
       ("color_distribution", PyVal.rgb cb.2.1 cb.2.2.1 cb.2.2.2),
       ("color_temperature", PyVal.num (a.color_temperature_of fr))]
    let withLens : List (String × PyVal) :=
      base ++
        (match a.svm_model with
         | Option.none => []
         | some _ => [("lens_type", optStrVal (classify_lens_type a fr))])
    let withYolo : List (String × PyVal) :=
      withLens ++
        (match a.yolo_model with
         | Option.none => []
         | some _ =>
           [("main_objects_percentage", optNumVal (analyze_objects a fr)),
            ("shot_type", optStrVal (assign_shot_type (analyze_objects a fr)))])
    withYolo ++ assign_quality_categories withYolo

/-- Closed form of the select_frames loop started at timestamp t: it emits
one FrameInfo per loop iteration, the k-th at timestamp t + k * period. -/
theorem selectFramesAux_eq_map (p D f : ℚ) (hp : 0 < p) :
    ∀ (n : ℕ) (t : ℚ), (⌈(D - t) / p⌉).toNat = n →
      selectFramesAux p D f hp t =
        (List.range n).map
          (fun k => { index := pyInt ((t + k * p) * f), timestamp := t + k * p }) := by
  intro n
  induction n with
  | zero =>
    intro t hn
    have hnotlt : ¬ t < D := by
      intro hlt
      have hpos : 0 < ⌈(D - t) / p⌉ := Int.ceil_pos.mpr (div_pos (by linarith) hp)
      omega
    rw [selectFramesAux, dif_neg hnotlt]
    simp
  | succ n ih =>
    intro t hn
    have hlt : t < D := by
      by_contra hc
      push_neg at hc
      have h0 : (D - t) / p ≤ 0 := div_nonpos_iff.mpr (Or.inr ⟨by linarith, hp.le⟩)
      have : ⌈(D - t) / p⌉ ≤ 0 := Int.ceil_le.mpr (by exact_mod_cast h0)
      omega
    have hstep : (D - (t + p)) / p = (D - t) / p - 1 := by
      field_simp
      ring
    have hnext : (⌈(D - (t + p)) / p⌉).toNat = n := by
      rw [hstep, Int.ceil_sub_one]
      omega
    rw [selectFramesAux, dif_pos hlt, ih (t + p) hnext, List.range_succ_eq_map,
      List.map_cons, List.map_map]
    congr 1
    · simp
    · apply List.map_congr_left
      intro k _
      simp only [Function.comp_apply]
      have harg : t + p + (k : ℚ) * p = t + ((k : ℚ) + 1) * p := by ring
      push_cast
      rw [harg]

/-- Closed form of select_frames: one FrameInfo per k below the iteration
count, at timestamp k * period with index int(timestamp * fps). -/
theorem select_frames_eq_map (s : PeriodicSelectionStrategy) (hp : 0 < s.period) :
    s.select_frames hp =
      (List.range (⌈s.duration / s.period⌉).toNat).map
        (fun k => { index := pyInt (k * s.period * s.fps), timestamp := k * s.period }) := by
  rw [PeriodicSelectionStrategy.select_frames,
    selectFramesAux_eq_map s.period s.duration s.fps hp (⌈s.duration / s.period⌉).toNat 0
      (by rw [sub_zero])]
  apply List.map_congr_left
  intro k _
  simp

/-- C3 (amended): for period p > 0, duration D and fps f with f >= 0,
select_frames emits exactly ceil(D / p) FrameInfo entries when D > 0, the
k-th having timestamp k * p and index floor(k * p * f), and emits nothing
when D <= 0. The restriction f >= 0 is forced: Python int() truncates toward
zero, which coincides with floor only for nonnegative products. -/
theorem periodic_select_frames_count_and_entries (p D f : ℚ) (hp : 0 < p) (hf : 0 ≤ f) :
    (0 < D →
      ((((PeriodicSelectionStrategy.init p D f).select_frames hp).length : ℤ) = ⌈D / p⌉)) ∧
    (∀ k (hk : k < ((PeriodicSelectionStrategy.init p D f).select_frames hp).length),
      (((PeriodicSelectionStrategy.init p D f).select_frames hp).get ⟨k, hk⟩).timestamp =
        (k : ℚ) * p ∧
      (((PeriodicSelectionStrategy.init p D f).select_frames hp).get ⟨k, hk⟩).index =
        ⌊((k : ℚ) * p * f)⌋) ∧
    (D ≤ 0 → (PeriodicSelectionStrategy.init p D f).select_frames hp = []) := by
  have hrw := select_frames_eq_map (PeriodicSelectionStrategy.init p D f) hp
  simp only [PeriodicSelectionStrategy.init] at hrw ⊢
  refine ⟨?_, ?_, ?_⟩
  · intro hD
    rw [hrw]
    simp only [List.length_map, List.length_range]
    have : 0 < ⌈D / p⌉ := Int.ceil_pos.mpr (div_pos hD hp)
    omega
  · intro k hk
    have hklen : k < (⌈D / p⌉).toNat := by
      have h1 := hk
      rw [hrw] at h1
      simpa using h1
    have hsome : (({ period := p, duration := D, fps := f } :
          PeriodicSelectionStrategy).select_frames hp)[k]? =
        some { index := pyInt ((k : ℚ) * p * f), timestamp := (k : ℚ) * p } := by
      rw [hrw]
      simp [List.getElem?_map, List.getElem?_range, hklen]
    have h2 := List.getElem?_eq_getElem hk
    have hval : (({ period := p, duration := D, fps := f } :
          PeriodicSelectionStrategy).select_frames hp)[k] =
        { index := pyInt ((k : ℚ) * p * f), timestamp := (k : ℚ) * p } :=
      Option.some_inj.mp (h2.symm.trans hsome)
    have hnn : 0 ≤ (k : ℚ) * p * f := mul_nonneg (mul_nonneg (Nat.cast_nonneg k) hp.le) hf
    constructor
    · rw [List.get_eq_getElem, hval]
    · rw [List.get_eq_getElem, hval]
      simp [pyInt, hnn]
  · intro hD
    rw [hrw]
    have h0 : ⌈D / p⌉ ≤ 0 :=
      Int.ceil_le.mpr (by exact_mod_cast div_nonpos_iff.mpr (Or.inr ⟨hD, hp.le⟩))
    have h1 : (⌈D / p⌉).toNat = 0 := by omega
    simp [h1]

/-- C3 witness: at period 2, duration 10, fps 30 the hypotheses hold and the
strategy emits ceil(10 / 2) = 5 frames. -/
theorem periodic_select_frames_count_and_entries_witness :
    (0 : ℚ) < 2 ∧ (0 : ℚ) ≤ 30 ∧ (0 : ℚ) < 10 ∧
    ((((PeriodicSelectionStrategy.init 2 10 30).select_frames (by decide)).length : ℤ) =
      ⌈(10 : ℚ) / 2⌉) :=
  ⟨by norm_num, by norm_num, by norm_num,
    (periodic_select_frames_count_and_entries 2 10 30 (by norm_num) (by norm_num)).1
      (by norm_num)⟩

/-- C3 counterexample: with period 1, duration 2 and fps -1/2, the entry at
k = 1 has index int(1 * (-1/2)) = 0, while the claimed floor(k * p * f) is
-1; the claim as stated over every fps is false on the code. -/
theorem periodic_select_frames_negative_fps_counterexample :
    ((((PeriodicSelectionStrategy.init 1 2 (-(1 / 2))).select_frames (by decide)).getD 1
        { index := 0, timestamp := 0 }).index = 0) ∧
    ⌊((1 : ℚ) * 1 * (-(1 / 2)))⌋ = -1 := by
  constructor
  · rw [select_frames_eq_map]
    have h2 : ⌈(PeriodicSelectionStrategy.init 1 2 (-(1 / 2))).duration /
        (PeriodicSelectionStrategy.init 1 2 (-(1 / 2))).period⌉ = 2 := by
      simp only [PeriodicSelectionStrategy.init]
      norm_num
    rw [h2]
    simp only [PeriodicSelectionStrategy.init]
    norm_num [pyInt, List.range_succ]
  · norm_num

/-- C6: the select_frames while-loop never terminates when period <= 0 and
duration > 0: after any number k of loop iterations from the initial state
(timestamp 0, no frames), the loop guard timestamp < duration still holds,
so no validation error is ever surfaced; __init__ stores the non-positive
period without any check. -/
theorem select_frames_loop_guard_never_false (p D f : ℚ) (hp : p ≤ 0) (hD : 0 < D) (k : ℕ) :
    ((selectFramesStep p f)^[k] (0, ([] : List FrameInfo))).1 < D := by
  have hfst : ∀ (n : ℕ) (s : ℚ × List FrameInfo),
      ((selectFramesStep p f)^[n] s).1 = s.1 + n * p := by
    intro n
    induction n with
    | zero => intro s; simp
    | succ n ih =>
      intro s
      rw [Function.iterate_succ_apply, ih]
      simp only [selectFramesStep]
      push_cast
      ring
  rw [hfst]
  have hkp : (k : ℚ) * p ≤ 0 := mul_nonpos_iff.mpr (Or.inl ⟨Nat.cast_nonneg k, hp⟩)
  show (0 : ℚ) + (k : ℚ) * p < D
  linarith

/-- C6 witness: with period 0, duration 1, fps 30, after 5 iterations the
guard is still true. -/
theorem select_frames_loop_guard_never_false_witness :
    (0 : ℚ) ≤ 0 ∧ (0 : ℚ) < 1 ∧
    ((selectFramesStep 0 30)^[5] (0, ([] : List FrameInfo))).1 < 1 :=
  ⟨le_refl 0, by norm_num,
    select_frames_loop_guard_never_false 0 1 30 (le_refl 0) (by norm_num) 5⟩

/-- The action list has one Action per surviving frame analysis. -/
theorem mkActions_length {Tech : Type} (D : ℚ)
    (fas : List (FrameInfo × String × Option Tech)) :
    (mkActions D fas).length = fas.length := by
  simp [mkActions]

/-- The i-th Action of the action list is actionAt i. -/
theorem mkActions_getElem {Tech : Type} (D : ℚ)
    (fas : List (FrameInfo × String × Option Tech)) (i : ℕ)
    (h : i < (mkActions D fas).length) :
    (mkActions D fas)[i] = actionAt D fas i := by
  simp [mkActions]

/-- Interval boundaries are a function of the surviving frames alone: two
analysis lists with the same FrameInfo components produce Actions with the
same start and stop at every position. -/
theorem actionAt_bounds_congr {T1 T2 : Type} (D : ℚ)
    (fas1 : List (FrameInfo × String × Option T1))
    (fas2 : List (FrameInfo × String × Option T2))
    (h : fas1.map (fun x => x.1) = fas2.map (fun x => x.1)) (i : ℕ) :
    (actionAt D fas1 i).start = (actionAt D fas2 i).start ∧
    (actionAt D fas1 i).stop = (actionAt D fas2 i).stop := by
  have hlen : fas1.length = fas2.length := by
    have h1 := congrArg List.length h
    simpa using h1
  have hts : ∀ j : ℕ, (fas1[j]?.getD defaultFA).1.timestamp =
      (fas2[j]?.getD defaultFA).1.timestamp := by
    intro j
    have h1 := congrArg (fun l => l[j]?) h
    simp only [List.getElem?_map] at h1
    cases e1 : fas1[j]? <;> cases e2 : fas2[j]? <;> rw [e1, e2] at h1 <;>
      simp_all [defaultFA]
  constructor
  · simp only [actionAt]
    by_cases h0 : i = 0
    · simp [h0]
    · simp [h0, hts]
  · simp only [actionAt]
    rw [hlen]
    by_cases hl : i = fas2.length - 1
    · simp [hl]
    · simp [hl, hts]

/-- Action content is a function of the surviving frames and captions alone. -/
theorem actionAt_content_congr {T1 T2 : Type} (D : ℚ)
    (fas1 : List (FrameInfo × String × Option T1))
    (fas2 : List (FrameInfo × String × Option T2))
    (h : fas1.map (fun x => (x.1, x.2.1)) = fas2.map (fun x => (x.1, x.2.1))) (i : ℕ) :
    (actionAt D fas1 i).content = (actionAt D fas2 i).content := by
  have hpair : ((fas1[i]?.getD defaultFA).1, (fas1[i]?.getD defaultFA).2.1) =
      ((fas2[i]?.getD defaultFA).1, (fas2[i]?.getD defaultFA).2.1) := by
    have h1 := congrArg (fun l => l[i]?) h
    simp only [List.getElem?_map] at h1
    cases e1 : fas1[i]? <;> cases e2 : fas2[i]? <;> rw [e1, e2] at h1 <;>
      simp_all [defaultFA]
  have hfi : (fas1[i]?.getD defaultFA).1 = (fas2[i]?.getD defaultFA).1 :=
    congrArg Prod.fst hpair
  have hcap : (fas1[i]?.getD defaultFA).2.1 = (fas2[i]?.getD defaultFA).2.1 :=
    congrArg Prod.snd hpair
  simp [actionAt, hfi, hcap]

/-- Map-level form of boundary congruence. -/
theorem mkActions_map_bounds_congr {T1 T2 : Type} (D : ℚ)
    (fas1 : List (FrameInfo × String × Option T1))
    (fas2 : List (FrameInfo × String × Option T2))
    (h : fas1.map (fun x => x.1) = fas2.map (fun x => x.1)) :
    (mkActions D fas1).map (fun a => (a.start, a.stop)) =
      (mkActions D fas2).map (fun a => (a.start, a.stop)) := by
  have hlen : fas1.length = fas2.length := by
    have h1 := congrArg List.length h
    simpa using h1
  rw [mkActions, mkActions, List.map_map, List.map_map, hlen]
  apply List.map_congr_left
  intro i _
  obtain ⟨hs, ht⟩ := actionAt_bounds_congr D fas1 fas2 h i
  simp [Function.comp_apply, hs, ht]

/-- Map-level form of content congruence. -/
theorem mkActions_map_content_congr {T1 T2 : Type} (D : ℚ)
    (fas1 : List (FrameInfo × String × Option T1))
    (fas2 : List (FrameInfo × String × Option T2))
    (h : fas1.map (fun x => (x.1, x.2.1)) = fas2.map (fun x => (x.1, x.2.1))) :
    (mkActions D fas1).map (fun a => a.content) =
      (mkActions D fas2).map (fun a => a.content) := by
  have hlen : fas1.length = fas2.length := by
    have h1 := congrArg List.length h
    simpa using h1
  rw [mkActions, mkActions, List.map_map, List.map_map, hlen]
  apply List.map_congr_left
  intro i _
  simp [Function.comp_apply, actionAt_content_congr D fas1 fas2 h i]

/-- The surviving frames are exactly the selected frames whose index
decodes, in order, regardless of captioner, technical analysis
configuration, or enumeration offset. -/
theorem collect_map_fst_eq_filter {Frame Tech : Type} (fn : String → String)
    (ex : Int → Bool) (e : Bool) (az : Option (Frame → Tech))
    (rf : String → Option Frame) (b : String) :
    ∀ (sel : List FrameInfo) (i : ℕ),
      (collectAnalyses fn ex e az rf b sel i).map (fun x => x.1) =
        sel.filter (fun fi => ex fi.index) := by
  intro sel
  induction sel with
  | nil => intro i; rfl
  | cons fi rest ih =>
    intro i
    by_cases hx : ex fi.index = true
    · simp [collectAnalyses, hx, List.filter_cons, ih]
    · simp [collectAnalyses, hx, List.filter_cons, ih]

/-- The surviving frames and their captions do not depend on the
technical-analysis configuration. -/
theorem collect_map_pair_congr {Frame1 Frame2 Tech1 Tech2 : Type}
    (fn : String → String) (ex : Int → Bool) (e1 e2 : Bool)
    (az1 : Option (Frame1 → Tech1)) (az2 : Option (Frame2 → Tech2))
    (rf1 : String → Option Frame1) (rf2 : String → Option Frame2) (b : String) :
    ∀ (sel : List FrameInfo) (i : ℕ),
      (collectAnalyses fn ex e1 az1 rf1 b sel i).map (fun x => (x.1, x.2.1)) =
        (collectAnalyses fn ex e2 az2 rf2 b sel i).map (fun x => (x.1, x.2.1)) := by
  intro sel
  induction sel with
  | nil => intro i; rfl
  | cons fi rest ih =>
    intro i
    by_cases hx : ex fi.index = true
    · simp [collectAnalyses, hx, ih]
    · simp [collectAnalyses, hx, ih]

/-- With technical analysis disabled, every surviving tuple carries no
technical-analysis value. -/
theorem collect_tech_none {Frame Tech : Type} (fn : String → String)
    (ex : Int → Bool) (az : Option (Frame → Tech)) (rf : String → Option Frame)
    (b : String) :
    ∀ (sel : List FrameInfo) (i : ℕ) (x : FrameInfo × String × Option Tech),
      x ∈ collectAnalyses fn ex false az rf b sel i → x.2.2 = Option.none := by
  intro sel
  induction sel with
  | nil => intro i x hx; exact absurd hx (List.not_mem_nil x)
  | cons fi rest ih =>
    intro i x hx
    by_cases he : ex fi.index = true
    · rw [collectAnalyses] at hx
      rw [if_pos he] at hx
      rcases List.mem_cons.mp hx with h1 | h1
      · rw [h1]
        simp [techValue]
      · exact ih (i + 1) x h1
    · rw [collectAnalyses] at hx
      rw [if_neg he] at hx
      exact ih (i + 1) x hx

/-- Every selected frame whose index decodes contributes its tuple, with the
caption computed on its enumerated temp-file path. -/
theorem collect_mem_of_extract {Frame Tech : Type} (fn : String → String)
    (ex : Int → Bool) (e : Bool) (az : Option (Frame → Tech))
    (rf : String → Option Frame) (b : String) :
    ∀ (sel : List FrameInfo) (i0 j : ℕ) (hj : j < sel.length),
      ex ((sel.get ⟨j, hj⟩).index) = true →
      (sel.get ⟨j, hj⟩, fn (framePath b (i0 + j)),
          techValue e az rf (framePath b (i0 + j))) ∈
        collectAnalyses fn ex e az rf b sel i0 := by
  intro sel
  induction sel with
  | nil => intro i0 j hj; simp at hj
  | cons fi rest ih =>
    intro i0 j hj hex
    cases j with
    | zero =>
      have hex0 : ex fi.index = true := hex
      rw [collectAnalyses, if_pos hex0]
      exact List.mem_cons_self _ _
    | succ j =>
      have hj2 : j < rest.length := by simpa using hj
      have hex2 : ex ((rest.get ⟨j, hj2⟩).index) = true := by
        simpa using hex
      have hmem := ih (i0 + 1) j hj2 hex2
      have harith : i0 + 1 + j = i0 + (j + 1) := by omega
      rw [harith] at hmem
      have hget : (fi :: rest).get ⟨j + 1, hj⟩ = rest.get ⟨j, hj2⟩ := rfl
      rw [hget]
      by_cases hx : ex fi.index = true
      · rw [collectAnalyses, if_pos hx]
        exact List.mem_cons_of_mem _ hmem
      · rw [collectAnalyses, if_neg hx]
        exact hmem

/-- A surviving tuple yields an Action whose content records its caption,
frame index and frame timestamp. -/
theorem mkActions_content_of_mem {Tech : Type} (D : ℚ)
    (fas : List (FrameInfo × String × Option Tech)) (fi : FrameInfo) (cap : String)
    (t : Option Tech) (h : (fi, cap, t) ∈ fas) :
    ∃ k, ∃ hk : k < (mkActions D fas).length,
      ((mkActions D fas).get ⟨k, hk⟩).content =
        { description := cap, frame_index := fi.index, frame_timestamp := fi.timestamp } := by
  obtain ⟨⟨k, hk⟩, hget⟩ := List.mem_iff_get.mp h
  have hk2 : k < (mkActions D fas).length := by
    rw [mkActions_length]
    exact hk
  refine ⟨k, hk2, ?_⟩
  have hgd : fas[k]? = some (fi, cap, t) := by
    rw [List.getElem?_eq_getElem hk]
    exact congrArg some (by simpa using hget)
  rw [List.get_eq_getElem, mkActions_getElem D fas k hk2]
  simp [actionAt, hgd]

/-- The frame indices of the produced Actions are the indices of the
surviving tuples, in order. -/
theorem mkActions_map_frame_index {Tech : Type} (D : ℚ)
    (fas : List (FrameInfo × String × Option Tech)) :
    (mkActions D fas).map (fun a => a.content.frame_index) =
      fas.map (fun x => x.1.index) := by
  apply List.ext_getElem
  · simp [mkActions]
  · intro i h1 h2
    have hi : i < fas.length := by simpa using h2
    simp [mkActions, actionAt, List.getElem?_eq_getElem hi]

/-- If every surviving tuple has no technical-analysis value, neither does
any produced Action. -/
theorem mkActions_tech_none {Tech : Type} (D : ℚ)
    (fas : List (FrameInfo × String × Option Tech))
    (h : ∀ x ∈ fas, x.2.2 = Option.none) :
    ∀ act ∈ mkActions D fas, act.technical_analysis = Option.none := by
  intro act hact
  rw [mkActions] at hact
  obtain ⟨i, _, rfl⟩ := List.mem_map.mp hact
  simp only [actionAt]
  cases e : fas[i]? with
  | none => simp [List.getD_eq_getElem?_getD, e, defaultFA]
  | some x =>
    have hx : x ∈ fas := List.getElem?_mem e
    simp [List.getD_eq_getElem?_getD, e, h x hx]

/-- The partition shape of the produced action list: first start 0, last
stop the duration, and each stop equal to the next start. -/
theorem mkActions_partition {Tech : Type} (D : ℚ)
    (fas : List (FrameInfo × String × Option Tech)) (hne : mkActions D fas ≠ []) :
    ((mkActions D fas).head hne).start = 0 ∧
    ((mkActions D fas).getLast hne).stop = D ∧
    ∀ i (h : i + 1 < (mkActions D fas).length),
      ((mkActions D fas).get ⟨i, by omega⟩).stop =
        ((mkActions D fas).get ⟨i + 1, h⟩).start := by
  refine ⟨?_, ?_, ?_⟩
  · rw [List.head_eq_getElem, mkActions_getElem]
    simp [actionAt]
  · rw [List.getLast_eq_getElem, mkActions_getElem, mkActions_length]
    simp [actionAt]
  · intro i h
    have hlen : i + 1 < fas.length := by
      rw [← mkActions_length D fas]
      exact h
    have hne1 : ¬ i = fas.length - 1 := by omega
    have hne0 : ¬ i + 1 = 0 := by omega
    rw [List.get_eq_getElem, List.get_eq_getElem, mkActions_getElem, mkActions_getElem]
    simp [actionAt, hne1, hne0]

/-- C1: for a video of duration D > 0 and a non-empty list of surviving
frame analyses, the actions of the MediaContext returned by analyse start at
0, end at D, and the stop of each action equals the start of the next: they
partition the timeline with no gaps and no overlaps. -/
theorem analyse_actions_partition_timeline {Frame Tech : Type}
    (a : FrameSelectionAnalysis Frame Tech) (D : ℚ) (ex : Int → Bool)
    (rf : String → Option Frame) (_hD : 0 < D)
    (hne : (a.analyse D ex rf).actions ≠ []) :
    ((a.analyse D ex rf).actions.head hne).start = 0 ∧
    ((a.analyse D ex rf).actions.getLast hne).stop = D ∧
    ∀ i (h : i + 1 < (a.analyse D ex rf).actions.length),
      ((a.analyse D ex rf).actions.get ⟨i, by omega⟩).stop =
        ((a.analyse D ex rf).actions.get ⟨i + 1, h⟩).start :=
  mkActions_partition D _ hne

/-- C1 witness: a 2-frame run over a 10-second video satisfies the
hypotheses; its first action starts at 0 and its last ends at 10. -/
theorem analyse_actions_partition_timeline_witness :
    (0 : ℚ) < 10 ∧
    ((((@FrameSelectionAnalysis.init Unit Unit "v" (fun _ => "cap")
        [{ index := 0, timestamp := 0 }, { index := 30, timestamp := 1 }] true
        (fun _ => ())).analyse 10 (fun _ => true) (fun _ => some ())).actions.head
        (List.ne_nil_of_length_pos (by decide))).start = 0) ∧
    ((((@FrameSelectionAnalysis.init Unit Unit "v" (fun _ => "cap")
        [{ index := 0, timestamp := 0 }, { index := 30, timestamp := 1 }] true
        (fun _ => ())).analyse 10 (fun _ => true) (fun _ => some ())).actions.getLast
        (List.ne_nil_of_length_pos (by decide))).stop = 10) :=
  ⟨by norm_num,
    (analyse_actions_partition_timeline
      (@FrameSelectionAnalysis.init Unit Unit "v" (fun _ => "cap")
        [{ index := 0, timestamp := 0 }, { index := 30, timestamp := 1 }] true
        (fun _ => ())) 10 (fun _ => true) (fun _ => some ()) (by norm_num)
      (List.ne_nil_of_length_pos (by decide))).1,
    (analyse_actions_partition_timeline
      (@FrameSelectionAnalysis.init Unit Unit "v" (fun _ => "cap")
        [{ index := 0, timestamp := 0 }, { index := 30, timestamp := 1 }] true
        (fun _ => ())) 10 (fun _ => true) (fun _ => some ()) (by norm_num)
      (List.ne_nil_of_length_pos (by decide))).2.1⟩

/-- C2: the orchestrator computes the start of action i as 0 for i = 0 and
otherwise as the midpoint of timestamps i-1 and i, and its stop as the
duration for the last action and otherwise as the midpoint of timestamps i
and i+1; in particular timestamps 0,2,4,6,8 with duration 10 give starts
0,1,3,5,7 and stops 1,3,5,7,10. -/
theorem mkActions_boundary_midpoints :
    (∀ (Tech : Type) (D : ℚ) (fas : List (FrameInfo × String × Option Tech)) (i : ℕ)
      (h : i < (mkActions D fas).length),
      ((mkActions D fas).get ⟨i, h⟩).start =
        (if i = 0 then 0
         else ((fas.getD (i - 1) defaultFA).1.timestamp +
            (fas.getD i defaultFA).1.timestamp) / 2) ∧
      ((mkActions D fas).get ⟨i, h⟩).stop =
        (if i = fas.length - 1 then D
         else ((fas.getD i defaultFA).1.timestamp +
            (fas.getD (i + 1) defaultFA).1.timestamp) / 2)) ∧
    ((@mkActions Unit 10
        [({ index := 0, timestamp := 0 }, "a", Option.none),
         ({ index := 60, timestamp := 2 }, "b", Option.none),
         ({ index := 120, timestamp := 4 }, "c", Option.none),
         ({ index := 180, timestamp := 6 }, "d", Option.none),
         ({ index := 240, timestamp := 8 }, "e", Option.none)]).map (fun a => a.start) =
      [0, 1, 3, 5, 7]) ∧
    ((@mkActions Unit 10
        [({ index := 0, timestamp := 0 }, "a", Option.none),
         ({ index := 60, timestamp := 2 }, "b", Option.none),
         ({ index := 120, timestamp := 4 }, "c", Option.none),
         ({ index := 180, timestamp := 6 }, "e", Option.none),
         ({ index := 240, timestamp := 8 }, "e", Option.none)]).map (fun a => a.stop) =
      [1, 3, 5, 7, 10]) := by
  refine ⟨?_, ?_, ?_⟩
  · intro Tech D fas i h
    rw [List.get_eq_getElem, mkActions_getElem]
    exact ⟨rfl, rfl⟩
  · simp [mkActions, actionAt, List.range_succ]
    norm_num
  · simp [mkActions, actionAt, List.range_succ]
    norm_num

/-- C2 witness: the general boundary formula applied at position 1 of a
concrete 2-element analysis list. -/
theorem mkActions_boundary_midpoints_witness :
    ((@mkActions Unit 10
        [({ index := 0, timestamp := 0 }, "a", Option.none),
         ({ index := 60, timestamp := 2 }, "b", Option.none)]).get ⟨1, by decide⟩).start =
      (if (1 : ℕ) = 0 then 0
       else (([({ index := 0, timestamp := 0 }, "a", (Option.none : Option Unit)),
          ({ index := 60, timestamp := 2 }, "b", Option.none)].getD 0 defaultFA).1.timestamp +
        ([({ index := 0, timestamp := 0 }, "a", (Option.none : Option Unit)),
          ({ index := 60, timestamp := 2 }, "b", Option.none)].getD 1 defaultFA).1.timestamp) / 2) :=
  (mkActions_boundary_midpoints.1 Unit 10
    [({ index := 0, timestamp := 0 }, "a", Option.none),
     ({ index := 60, timestamp := 2 }, "b", Option.none)] 1 (by decide)).1

/-- C5: each failed decode contributes no Action while the rest proceed: the
produced actions correspond exactly, in order, to the selected frames whose
index decodes; and when no frame survives, analyse returns a MediaContext
with an empty action list instead of failing. -/
theorem analyse_skips_failed_decodes {Frame Tech : Type}
    (a : FrameSelectionAnalysis Frame Tech) (D : ℚ) (ex : Int → Bool)
    (rf : String → Option Frame) :
    ((a.analyse D ex rf).actions.map (fun act => act.content.frame_index) =
      (a.frame_selection_strategy.filter (fun fi => ex fi.index)).map
        (fun fi => fi.index)) ∧
    ((a.frame_selection_strategy.filter (fun fi => ex fi.index)) = [] →
      (a.analyse D ex rf).actions = []) := by
  constructor
  · show (mkActions D (collectAnalyses a.frame_analysis_fn ex a.enable_technical_analysis
        a.technical_analyzer rf (pySplitHead (pyBasename a.video_path) '.')
        a.frame_selection_strategy 0)).map (fun act => act.content.frame_index) = _
    rw [mkActions_map_frame_index]
    rw [show (fun x : FrameInfo × String × Option Tech => x.1.index) =
        ((fun fi : FrameInfo => fi.index) ∘ (fun x => x.1)) from rfl]
    rw [← List.map_map, collect_map_fst_eq_filter]
  · intro hfil
    show mkActions D (collectAnalyses a.frame_analysis_fn ex a.enable_technical_analysis
        a.technical_analyzer rf (pySplitHead (pyBasename a.video_path) '.')
        a.frame_selection_strategy 0) = []
    have h2 : (collectAnalyses a.frame_analysis_fn ex a.enable_technical_analysis
        a.technical_analyzer rf (pySplitHead (pyBasename a.video_path) '.')
        a.frame_selection_strategy 0).map (fun x => x.1) = [] := by
      rw [collect_map_fst_eq_filter, hfil]
    rw [List.map_eq_nil_iff] at h2
    rw [h2]
    rfl

/-- C5 witness: with a decoder that fails on every frame, no frame survives
and the returned action list is empty. -/
theorem analyse_skips_failed_decodes_witness :
    (((@FrameSelectionAnalysis.init Unit Unit "v" (fun _ => "cap")
        [{ index := 0, timestamp := 0 }] true
        (fun _ => ())).frame_selection_strategy.filter
        (fun fi => (fun _ : Int => false) fi.index)) = []) ∧
    ((@FrameSelectionAnalysis.init Unit Unit "v" (fun _ => "cap")
        [{ index := 0, timestamp := 0 }] true
        (fun _ => ())).analyse 10 (fun _ => false) (fun _ => some ())).actions = [] :=
  ⟨by decide,
    (analyse_skips_failed_decodes
      (@FrameSelectionAnalysis.init Unit Unit "v" (fun _ => "cap")
        [{ index := 0, timestamp := 0 }] true (fun _ => ())) 10 (fun _ => false)
      (fun _ => some ())).2 (by decide)⟩

/-- C8: with technical analysis disabled at construction, every Action of
the analyse result has no technical_analysis value, while the content and
the start/stop boundaries of every Action are identical to the enabled
run. -/
theorem analyse_disabled_technical_analysis {Frame Tech : Type} (vp : String)
    (fn : String → String) (sel : List FrameInfo) (ex : Int → Bool)
    (rf : String → Option Frame) (D : ℚ) (created : Frame → Tech) :
    (∀ act ∈ ((FrameSelectionAnalysis.init vp fn sel false created).analyse D ex rf).actions,
      act.technical_analysis = Option.none) ∧
    (((FrameSelectionAnalysis.init vp fn sel false created).analyse D ex rf).actions.map
        (fun act => act.content) =
      ((FrameSelectionAnalysis.init vp fn sel true created).analyse D ex rf).actions.map
        (fun act => act.content)) ∧
    (((FrameSelectionAnalysis.init vp fn sel false created).analyse D ex rf).actions.map
        (fun act => (act.start, act.stop)) =
      ((FrameSelectionAnalysis.init vp fn sel true created).analyse D ex rf).actions.map
        (fun act => (act.start, act.stop))) := by
  refine ⟨?_, ?_, ?_⟩
  · intro act hact
    exact mkActions_tech_none D _
      (fun x hx => collect_tech_none fn ex _ rf _ sel 0 x hx) act hact
  · exact mkActions_map_content_congr D _ _
      (collect_map_pair_congr fn ex false true _ _ rf rf _ sel 0)
  · exact mkActions_map_bounds_congr D _ _
      (by rw [collect_map_fst_eq_filter, collect_map_fst_eq_filter]; rfl)

/-- C8 witness: for a concrete one-frame disabled run, the single produced
Action has no technical-analysis value. -/
theorem analyse_disabled_technical_analysis_witness :
    ({ start := 0, stop := 10,
       content := { description := "cap", frame_index := 0, frame_timestamp := 0 },
       technical_analysis := Option.none } : Action Unit).technical_analysis =
      Option.none :=
  (@analyse_disabled_technical_analysis Unit Unit "v" (fun _ => "cap")
    [{ index := 0, timestamp := 0 }] (fun _ => true) (fun _ => some ()) 10
    (fun _ => ())).1
    { start := 0, stop := 10,
      content := { description := "cap", frame_index := 0, frame_timestamp := 0 },
      technical_analysis := Option.none } (by decide)

/-- C4: when the captioning collaborator fails for a frame (modelled by the
server wrapper create_frame_analysis_fn, which catches the failure and
returns a descriptive error string), the Action for that frame still exists
with the error-indicating description as its content, and the start/stop
boundaries of every action are the same as under any succeeding captioner. -/
theorem analyse_caption_failure_contained {Frame Tech : Type} (vp : String)
    (sel : List FrameInfo) (ex : Int → Bool) (rf : String → Option Frame) (D : ℚ)
    (enable : Bool) (created : Frame → Tech)
    (cap : String → Except String String) (g : String → String)
    (j : ℕ) (hj : j < sel.length)
    (hex : ex ((sel.get ⟨j, hj⟩).index) = true) (e : String)
    (herr : cap (framePath (pySplitHead (pyBasename vp) '.') j) = Except.error e) :
    (((FrameSelectionAnalysis.init vp (create_frame_analysis_fn cap) sel enable
        created).analyse D ex rf).actions.map (fun act => (act.start, act.stop)) =
      ((FrameSelectionAnalysis.init vp g sel enable created).analyse D ex rf).actions.map
        (fun act => (act.start, act.stop))) ∧
    ∃ k, ∃ hk : k < ((FrameSelectionAnalysis.init vp (create_frame_analysis_fn cap) sel
        enable created).analyse D ex rf).actions.length,
      (((FrameSelectionAnalysis.init vp (create_frame_analysis_fn cap) sel enable
          created).analyse D ex rf).actions.get ⟨k, hk⟩).content =
        { description := "Frame analysis failed for " ++
            pyBasename (framePath (pySplitHead (pyBasename vp) '.') j) ++
            " (Error: " ++ e ++ ")",
          frame_index := (sel.get ⟨j, hj⟩).index,
          frame_timestamp := (sel.get ⟨j, hj⟩).timestamp } := by
  constructor
  · exact mkActions_map_bounds_congr D _ _
      (by rw [collect_map_fst_eq_filter, collect_map_fst_eq_filter]; rfl)
  · have hmem := collect_mem_of_extract (create_frame_analysis_fn cap) ex enable
      (if enable then some created else none) rf
      (pySplitHead (pyBasename vp) '.') sel 0 j hj hex
    rw [Nat.zero_add] at hmem
    have hdesc : create_frame_analysis_fn cap
        (framePath (pySplitHead (pyBasename vp) '.') j) =
        "Frame analysis failed for " ++
          pyBasename (framePath (pySplitHead (pyBasename vp) '.') j) ++
          " (Error: " ++ e ++ ")" := by
      simp [create_frame_analysis_fn, herr]
    rw [hdesc] at hmem
    obtain ⟨k, hk, hc⟩ := mkActions_content_of_mem D _ _ _ _ hmem
    exact ⟨k, hk, hc⟩

/-- C4 witness: a captioner failing exactly on the path of the second frame
yields an Action whose description is the error string of the wrapper for that
frame. -/
theorem analyse_caption_failure_contained_witness :
    ∃ k, ∃ hk : k < ((@FrameSelectionAnalysis.init Unit Unit "v"
        (create_frame_analysis_fn (fun p =>
          if p = framePath (pySplitHead (pyBasename "v") '.') 1 then Except.error "boom"
          else Except.ok "ok"))
        [{ index := 0, timestamp := 0 }, { index := 30, timestamp := 1 }] false
        (fun _ => ())).analyse 10 (fun _ => true) (fun _ => some ())).actions.length,
      (((@FrameSelectionAnalysis.init Unit Unit "v"
          (create_frame_analysis_fn (fun p =>
            if p = framePath (pySplitHead (pyBasename "v") '.') 1 then Except.error "boom"
            else Except.ok "ok"))
          [{ index := 0, timestamp := 0 }, { index := 30, timestamp := 1 }] false
          (fun _ => ())).analyse 10 (fun _ => true) (fun _ => some ())).actions.get
          ⟨k, hk⟩).content =
        { description := "Frame analysis failed for " ++
            pyBasename (framePath (pySplitHead (pyBasename "v") '.') 1) ++
            " (Error: " ++ "boom" ++ ")",
          frame_index :=
            ([{ index := 0, timestamp := 0 },
              { index := 30, timestamp := 1 }].get ⟨1, by decide⟩ : FrameInfo).index,
          frame_timestamp :=
            ([{ index := 0, timestamp := 0 },
              { index := 30, timestamp := 1 }].get ⟨1, by decide⟩ : FrameInfo).timestamp } :=
  (@analyse_caption_failure_contained Unit Unit "v"
    [{ index := 0, timestamp := 0 }, { index := 30, timestamp := 1 }] (fun _ => true)
    (fun _ => some ()) 10 false (fun _ => ())
    (fun p =>
      if p = framePath (pySplitHead (pyBasename "v") '.') 1 then Except.error "boom"
      else Except.ok "ok")
    (fun _ => "ok") 1 (by decide) rfl "boom" (by simp)).2

/-- Every clarity-branch entry carries the clarity_category key, so a lookup
for a different key skips the branch. -/
theorem clarityCategoryEntries_find?_skip (analysis : List (String × PyVal)) (k : String)
    (hk : ("clarity_category" == k) = false) :
    (clarityCategoryEntries analysis).find? (fun e => e.1 == k) = Option.none := by
  rw [List.find?_eq_none]
  intro x hx
  unfold clarityCategoryEntries at hx
  split at hx
  · simp only [List.mem_singleton] at hx
    rw [hx]
    simpa using hk
  · simp at hx

/-- Every contrast-branch entry carries the contrast_category key. -/
theorem contrastCategoryEntries_find?_skip (analysis : List (String × PyVal)) (k : String)
    (hk : ("contrast_category" == k) = false) :
    (contrastCategoryEntries analysis).find? (fun e => e.1 == k) = Option.none := by
  rw [List.find?_eq_none]
  intro x hx
  unfold contrastCategoryEntries at hx
  split at hx
  · simp only [List.mem_singleton] at hx
    rw [hx]
    simpa using hk
  · simp at hx

/-- Every brightness-branch entry carries the brightness_category key. -/
theorem brightnessCategoryEntries_find?_skip (analysis : List (String × PyVal)) (k : String)
    (hk : ("brightness_category" == k) = false) :
    (brightnessCategoryEntries analysis).find? (fun e => e.1 == k) = Option.none := by
  rw [List.find?_eq_none]
  intro x hx
  unfold brightnessCategoryEntries at hx
  split at hx
  · simp only [List.mem_singleton] at hx
    rw [hx]
    simpa using hk
  · simp at hx

/-- Every color-temperature-branch entry carries its category key. -/
theorem colorTemperatureCategoryEntries_find?_skip (analysis : List (String × PyVal))
    (k : String) (hk : ("color_temperature_category" == k) = false) :
    (colorTemperatureCategoryEntries analysis).find? (fun e => e.1 == k) = Option.none := by
  rw [List.find?_eq_none]
  intro x hx
  unfold colorTemperatureCategoryEntries at hx
  split at hx
  · simp only [List.mem_singleton] at hx
    rw [hx]
    simpa using hk
  · simp at hx

/-- Every saturation-branch entry carries the saturation_category key. -/
theorem saturationCategoryEntries_find?_skip (analysis : List (String × PyVal)) (k : String)
    (hk : ("saturation_category" == k) = false) :
    (saturationCategoryEntries analysis).find? (fun e => e.1 == k) = Option.none := by
  rw [List.find?_eq_none]
  intro x hx
  unfold saturationCategoryEntries at hx
  split at hx
  · simp only [List.mem_singleton] at hx
    rw [hx]
    simpa using hk
  · simp at hx

/-- Every sharpness-branch entry carries the sharpness_category key. -/
theorem sharpnessCategoryEntries_find?_skip (analysis : List (String × PyVal)) (k : String)
    (hk : ("sharpness_category" == k) = false) :
    (sharpnessCategoryEntries analysis).find? (fun e => e.1 == k) = Option.none := by
  rw [List.find?_eq_none]
  intro x hx
  unfold sharpnessCategoryEntries at hx
  split at hx
  · simp only [List.mem_singleton] at hx
    rw [hx]
    simpa using hk
  · simp at hx

/-- C7: quality categorisation is a pure function of the corresponding
scalar: clarity 450, 250 and 50 are categorised good, average and bad, and
color temperature 0.25, -0.35 and 0 are categorised probably_warm, cold and
neutral, whatever else the metrics dict holds. -/
theorem assign_quality_categories_thresholds (analysis : List (String × PyVal)) :
    (dictFind analysis "clarity" = some (PyVal.num 450) →
      dictFind (assign_quality_categories analysis) "clarity_category" =
        some (PyVal.str "good")) ∧
    (dictFind analysis "clarity" = some (PyVal.num 250) →
      dictFind (assign_quality_categories analysis) "clarity_category" =
        some (PyVal.str "average")) ∧
    (dictFind analysis "clarity" = some (PyVal.num 50) →
      dictFind (assign_quality_categories analysis) "clarity_category" =
        some (PyVal.str "bad")) ∧
    (dictFind analysis "color_temperature" = some (PyVal.num 0.25) →
      dictFind (assign_quality_categories analysis) "color_temperature_category" =
        some (PyVal.str "probably_warm")) ∧
    (dictFind analysis "color_temperature" = some (PyVal.num (-0.35)) →
      dictFind (assign_quality_categories analysis) "color_temperature_category" =
        some (PyVal.str "cold")) ∧
    (dictFind analysis "color_temperature" = some (PyVal.num 0) →
      dictFind (assign_quality_categories analysis) "color_temperature_category" =
        some (PyVal.str "neutral")) := by
  refine ⟨?_, ?_, ?_, ?_, ?_, ?_⟩
  · intro h
    have h1 : clarityCategoryEntries analysis = [("clarity_category", PyVal.str "good")] := by
      unfold clarityCategoryEntries
      rw [h]
      norm_num
    rw [dictFind, assign_quality_categories, List.find?_append, List.find?_append,
      List.find?_append, List.find?_append, List.find?_append, h1]
    simp
  · intro h
    have h1 : clarityCategoryEntries analysis =
        [("clarity_category", PyVal.str "average")] := by
      unfold clarityCategoryEntries
      rw [h]
      norm_num
    rw [dictFind, assign_quality_categories, List.find?_append, List.find?_append,
      List.find?_append, List.find?_append, List.find?_append, h1]
    simp
  · intro h
    have h1 : clarityCategoryEntries analysis = [("clarity_category", PyVal.str "bad")] := by
      unfold clarityCategoryEntries
      rw [h]
      norm_num
    rw [dictFind, assign_quality_categories, List.find?_append, List.find?_append,
      List.find?_append, List.find?_append, List.find?_append, h1]
    simp
  · intro h
    have h1 : colorTemperatureCategoryEntries analysis =
        [("color_temperature_category", PyVal.str "probably_warm")] := by
      unfold colorTemperatureCategoryEntries
      rw [h]
      norm_num
    rw [dictFind, assign_quality_categories, List.find?_append, List.find?_append,
      List.find?_append, List.find?_append, List.find?_append, h1,
      clarityCategoryEntries_find?_skip analysis _ (by decide),
      contrastCategoryEntries_find?_skip analysis _ (by decide),
      brightnessCategoryEntries_find?_skip analysis _ (by decide)]
    simp
  · intro h
    have h1 : colorTemperatureCategoryEntries analysis =
        [("color_temperature_category", PyVal.str "cold")] := by
      unfold colorTemperatureCategoryEntries
      rw [h]
      norm_num
    rw [dictFind, assign_quality_categories, List.find?_append, List.find?_append,
      List.find?_append, List.find?_append, List.find?_append, h1,
      clarityCategoryEntries_find?_skip analysis _ (by decide),
      contrastCategoryEntries_find?_skip analysis _ (by decide),
      brightnessCategoryEntries_find?_skip analysis _ (by decide)]
    simp
  · intro h
    have h1 : colorTemperatureCategoryEntries analysis =
        [("color_temperature_category", PyVal.str "neutral")] := by
      unfold colorTemperatureCategoryEntries
      rw [h]
      norm_num
    rw [dictFind, assign_quality_categories, List.find?_append, List.find?_append,
      List.find?_append, List.find?_append, List.find?_append, h1,
      clarityCategoryEntries_find?_skip analysis _ (by decide),
      contrastCategoryEntries_find?_skip analysis _ (by decide),
      brightnessCategoryEntries_find?_skip analysis _ (by decide)]
    simp

/-- C7 witness: a dict holding clarity 450 and color temperature 0.25 gets
clarity_category good and color_temperature_category probably_warm. -/
theorem assign_quality_categories_thresholds_witness :
    dictFind (assign_quality_categories
        [("clarity", PyVal.num 450), ("color_temperature", PyVal.num 0.25)])
      "clarity_category" = some (PyVal.str "good") ∧
    dictFind (assign_quality_categories
        [("clarity", PyVal.num 450), ("color_temperature", PyVal.num 0.25)])
      "color_temperature_category" = some (PyVal.str "probably_warm") :=
  ⟨(assign_quality_categories_thresholds
      [("clarity", PyVal.num 450), ("color_temperature", PyVal.num 0.25)]).1 rfl,
    (assign_quality_categories_thresholds
      [("clarity", PyVal.num 450), ("color_temperature", PyVal.num 0.25)]).2.2.2.1 rfl⟩

/-- C9 (amended): when the SVM or YOLO sub-model is unavailable,
analyze_frame omits the corresponding keys (lens_type, respectively
main_objects_percentage and shot_type) and never fails; when the computation of a loaded
sub-model fails, the corresponding keys are present but map to
None rather than a failure being raised. The amendment is forced: the source
stores the caught failure as a None value under the key instead of omitting
the key. -/
theorem analyze_frame_optional_models {Frame : Type} (a : TechnicalFrameAnalyzer Frame)
    (fr : Frame) :
    (a.svm_model = Option.none →
      dictFind (a.analyze_frame (some fr)) "lens_type" = Option.none) ∧
    (a.yolo_model = Option.none →
      dictFind (a.analyze_frame (some fr)) "main_objects_percentage" = Option.none ∧
      dictFind (a.analyze_frame (some fr)) "shot_type" = Option.none) ∧
    (∀ (m : Frame → Except String Int) (e : String),
      a.svm_model = some m → m fr = Except.error e →
      dictFind (a.analyze_frame (some fr)) "lens_type" = some PyVal.none) ∧
    (∀ (m : Frame → Except String ℚ) (e : String),
      a.yolo_model = some m → m fr = Except.error e →
      dictFind (a.analyze_frame (some fr)) "main_objects_percentage" = some PyVal.none ∧
      dictFind (a.analyze_frame (some fr)) "shot_type" = some PyVal.none) := by
  refine ⟨?_, ?_, ?_, ?_⟩
  · intro hsvm
    unfold TechnicalFrameAnalyzer.analyze_frame dictFind
    simp only [hsvm]
    cases hy : a.yolo_model with
    | none =>
      simp [List.find?_append, assign_quality_categories,
        clarityCategoryEntries_find?_skip _ "lens_type" (by decide),
        contrastCategoryEntries_find?_skip _ "lens_type" (by decide),
        brightnessCategoryEntries_find?_skip _ "lens_type" (by decide),
        colorTemperatureCategoryEntries_find?_skip _ "lens_type" (by decide),
        saturationCategoryEntries_find?_skip _ "lens_type" (by decide),
        sharpnessCategoryEntries_find?_skip _ "lens_type" (by decide)]
    | some m =>
      simp [List.find?_append, assign_quality_categories,
        clarityCategoryEntries_find?_skip _ "lens_type" (by decide),
        contrastCategoryEntries_find?_skip _ "lens_type" (by decide),
        brightnessCategoryEntries_find?_skip _ "lens_type" (by decide),
        colorTemperatureCategoryEntries_find?_skip _ "lens_type" (by decide),
        saturationCategoryEntries_find?_skip _ "lens_type" (by decide),
        sharpnessCategoryEntries_find?_skip _ "lens_type" (by decide)]
  · intro hy
    constructor
    · unfold TechnicalFrameAnalyzer.analyze_frame dictFind
      simp only [hy]
      cases hs : a.svm_model with
      | none =>
        simp [List.find?_append, assign_quality_categories,
          clarityCategoryEntries_find?_skip _ "main_objects_percentage" (by decide),
          contrastCategoryEntries_find?_skip _ "main_objects_percentage" (by decide),
          brightnessCategoryEntries_find?_skip _ "main_objects_percentage" (by decide),
          colorTemperatureCategoryEntries_find?_skip _ "main_objects_percentage" (by decide),
          saturationCategoryEntries_find?_skip _ "main_objects_percentage" (by decide),
          sharpnessCategoryEntries_find?_skip _ "main_objects_percentage" (by decide)]
      | some m =>
        simp [List.find?_append, assign_quality_categories,
          clarityCategoryEntries_find?_skip _ "main_objects_percentage" (by decide),
          contrastCategoryEntries_find?_skip _ "main_objects_percentage" (by decide),
          brightnessCategoryEntries_find?_skip _ "main_objects_percentage" (by decide),
          colorTemperatureCategoryEntries_find?_skip _ "main_objects_percentage" (by decide),
          saturationCategoryEntries_find?_skip _ "main_objects_percentage" (by decide),
          sharpnessCategoryEntries_find?_skip _ "main_objects_percentage" (by decide)]
    · unfold TechnicalFrameAnalyzer.analyze_frame dictFind
      simp only [hy]
      cases hs : a.svm_model with
      | none =>
        simp [List.find?_append, assign_quality_categories,
          clarityCategoryEntries_find?_skip _ "shot_type" (by decide),
          contrastCategoryEntries_find?_skip _ "shot_type" (by decide),
          brightnessCategoryEntries_find?_skip _ "shot_type" (by decide),
          colorTemperatureCategoryEntries_find?_skip _ "shot_type" (by decide),
          saturationCategoryEntries_find?_skip _ "shot_type" (by decide),
          sharpnessCategoryEntries_find?_skip _ "shot_type" (by decide)]
      | some m =>
        simp [List.find?_append, assign_quality_categories,
          clarityCategoryEntries_find?_skip _ "shot_type" (by decide),
          contrastCategoryEntries_find?_skip _ "shot_type" (by decide),
          brightnessCategoryEntries_find?_skip _ "shot_type" (by decide),
          colorTemperatureCategoryEntries_find?_skip _ "shot_type" (by decide),
          saturationCategoryEntries_find?_skip _ "shot_type" (by decide),
          sharpnessCategoryEntries_find?_skip _ "shot_type" (by decide)]
  · intro m e hsvm herr
    unfold TechnicalFrameAnalyzer.analyze_frame dictFind classify_lens_type
    simp [hsvm, herr, optStrVal, List.find?_append]
  · intro m e hy herr
    constructor
    · unfold TechnicalFrameAnalyzer.analyze_frame dictFind analyze_objects
      simp only [hy, herr]
      cases hs : a.svm_model with
      | none => simp [optNumVal, List.find?_append]
      | some m2 => simp [optNumVal, List.find?_append]
    · unfold TechnicalFrameAnalyzer.analyze_frame dictFind analyze_objects
      simp only [hy, herr]
      cases hs : a.svm_model with
      | none => simp [optNumVal, optStrVal, assign_shot_type, List.find?_append]
      | some m2 => simp [optNumVal, optStrVal, assign_shot_type, List.find?_append]

/-- C9 counterexample: for an analyzer whose loaded lens classifier fails on
the frame, the returned dict still contains the lens_type key (mapped to
None), refuting the claim that a failed optional metric is omitted from the
result map. -/
theorem analyze_frame_failed_metric_key_present_counterexample :
    dictFind
      (@TechnicalFrameAnalyzer.analyze_frame Unit
        { svm_model := some (fun _ => Except.error "fail"), yolo_model := Option.none,
          clarity_of := fun _ => 0, contrast_of := fun _ => 0,
          brightness_of := fun _ => 0, sharpness_of := fun _ => 0,
          saturation_of := fun _ => 0, color_balance_of := fun _ => (0, 0, 0, 0),
          color_temperature_of := fun _ => 0 }
        (some ())) "lens_type" = some PyVal.none := by
  unfold TechnicalFrameAnalyzer.analyze_frame dictFind classify_lens_type
  simp [optStrVal, List.find?_append]

/-- C9 witness: on a concrete analyzer with a failing lens classifier and no
object detector, lens_type maps to None while the detector keys are
absent. -/
theorem analyze_frame_optional_models_witness :
    dictFind
      (@TechnicalFrameAnalyzer.analyze_frame Unit
        { svm_model := some (fun _ => Except.error "boom"), yolo_model := Option.none,
          clarity_of := fun _ => 1, contrast_of := fun _ => 1,
          brightness_of := fun _ => 1, sharpness_of := fun _ => 1,
          saturation_of := fun _ => 1, color_balance_of := fun _ => (1, 1, 1, 1),
          color_temperature_of := fun _ => 1 }
        (some ())) "lens_type" = some PyVal.none ∧
    dictFind
      (@TechnicalFrameAnalyzer.analyze_frame Unit
        { svm_model := some (fun _ => Except.error "boom"), yolo_model := Option.none,
          clarity_of := fun _ => 1, contrast_of := fun _ => 1,
          brightness_of := fun _ => 1, sharpness_of := fun _ => 1,
          saturation_of := fun _ => 1, color_balance_of := fun _ => (1, 1, 1, 1),
          color_temperature_of := fun _ => 1 }
        (some ())) "main_objects_percentage" = Option.none ∧
    dictFind
      (@TechnicalFrameAnalyzer.analyze_frame Unit
        { svm_model := some (fun _ => Except.error "boom"), yolo_model := Option.none,
          clarity_of := fun _ => 1, contrast_of := fun _ => 1,
          brightness_of := fun _ => 1, sharpness_of := fun _ => 1,
          saturation_of := fun _ => 1, color_balance_of := fun _ => (1, 1, 1, 1),
          color_temperature_of := fun _ => 1 }
        (some ())) "shot_type" = Option.none :=
  ⟨(analyze_frame_optional_models
      { svm_model := some (fun _ => Except.error "boom"), yolo_model := Option.none,
        clarity_of := fun _ => 1, contrast_of := fun _ => 1,
        brightness_of := fun _ => 1, sharpness_of := fun _ => 1,
        saturation_of := fun _ => 1, color_balance_of := fun _ => (1, 1, 1, 1),
        color_temperature_of := fun _ => 1 } ()).2.2.1
      (fun _ => Except.error "boom") "boom" rfl rfl,
    ((analyze_frame_optional_models
      { svm_model := some (fun _ => Except.error "boom"), yolo_model := Option.none,
        clarity_of := fun _ => 1, contrast_of := fun _ => 1,
        brightness_of := fun _ => 1, sharpness_of := fun _ => 1,
        saturation_of := fun _ => 1, color_balance_of := fun _ => (1, 1, 1, 1),
        color_temperature_of := fun _ => 1 } ()).2.1 rfl).1,
    ((analyze_frame_optional_models
      { svm_model := some (fun _ => Except.error "boom"), yolo_model := Option.none,
        clarity_of := fun _ => 1, contrast_of := fun _ => 1,
        brightness_of := fun _ => 1, sharpness_of := fun _ => 1,
        saturation_of := fun _ => 1, color_balance_of := fun _ => (1, 1, 1, 1),
        color_temperature_of := fun _ => 1 } ()).2.1 rfl).2⟩

/-- C10: for a None frame, analyze_frame returns the empty metrics dict:
no scalar metrics, no category keys, and no failure. -/
theorem analyze_frame_none_empty {Frame : Type} (a : TechnicalFrameAnalyzer Frame) :
    a.analyze_frame Option.none = [] := rfl

end SVA
